import Mathlib

/-!
Verification of the pypub epub builder (src/pypub/builder.py) against its
natural-language specification.  The Python module is shallowly embedded:
pure string manipulations (os.path.join, os.path.basename, os.path.dirname,
str.rsplit) become Lean functions on String, the mutable EpubBuilder object
becomes explicit state passing over a Builder structure, the on-disk working
tree becomes a Layout structure mirroring the fixed directory skeleton that
epub_dirs creates, and Python exceptions become an explicit PyErr sum carried
in Except.  External collaborators (the jinja2 template engine, the chapter
factory, the static asset files) are modelled as function parameters, exactly
as the spec treats them (black boxes / pluggable strategies).
-/

namespace Pypub

/-! Python string and path primitives used by builder.py. -/

/-- Python truthiness test os.path semantics: does the string start with '/'?
(posixpath.join checks b.startswith(sep)). -/
def startsSlash (s : String) : Bool :=
  match s.data with
  | [] => false
  | c :: _ => c == '/'

/-- Does the string end with '/' (posixpath.join checks path.endswith(sep))? -/
def endsSlash (s : String) : Bool :=
  match s.data.getLast? with
  | some c => c == '/'
  | none => false

/-- os.path.join(a, b) for exactly two posix components: if b is absolute the
result is b; if a is empty or ends with the separator the parts are
concatenated; otherwise a separator is inserted. -/
def pjoin (a b : String) : String :=
  if startsSlash b then b
  else if a = "" then a ++ b
  else if endsSlash a then a ++ b
  else a ++ "/" ++ b

/-- os.path.basename(p): the part of p after the last '/', computed as in
posixpath (p[p.rfind('/')+1:]). -/
def basename (p : String) : String :=
  String.mk ((p.data.reverse.takeWhile (fun c => c != '/')).reverse)

/-- drop every trailing '/' from a character list (str.rstrip('/')). -/
def rstripSlashes (l : List Char) : List Char :=
  (l.reverse.dropWhile (fun c => c == '/')).reverse

/-- os.path.dirname(p) as posixpath computes it: everything up to and
including the last '/', with trailing separators stripped unless the head
consists only of separators. -/
def dirname (p : String) : String :=
  let head := (p.data.reverse.dropWhile (fun c => c != '/')).reverse
  if head.all (fun c => c == '/') then String.mk head
  else String.mk (rstripSlashes head)

/-- every index of l at which the pattern sep starts. -/
def occs (sep : List Char) : List Char → Nat → List Nat
  | [], _ => []
  | c :: rest, i =>
    (if sep.isPrefixOf (c :: rest) then [i] else []) ++ occs sep rest (i + 1)

/-- Python s.rsplit(".epub", 1)[0]: the part of s before the last occurrence
of ".epub", or s itself when ".epub" does not occur (str.rsplit scans from
the right; the last start index of the pattern is where the split happens). -/
def rsplitEpub (s : String) : String :=
  match (occs ".epub".data s.data 0).getLast? with
  | none => s
  | some i => String.mk (s.data.take i)

/-- builder.py get_extension: fname.rsplit('.', 1)[-1], i.e. the text after
the last '.', or the whole name when it has no dot. -/
def get_extension (fname : String) : String :=
  String.mk ((fname.data.reverse.takeWhile (fun c => c != '.')).reverse)

/-- arcname normalization performed by zipfile.ZipInfo.from_file on the
second argument of ZipFile.write: leading path separators are removed (the
os.path.normpath step is the identity on the already-normal paths that
builder.py produces, since their components contain no '.' '..' or repeated
separators). -/
def normArc (s : String) : String :=
  String.mk (s.data.dropWhile (fun c => c == '/'))

/-! Data model translated from builder.py. -/

/-- Errors surfaced by the builder, the shallow embedding of the Python
exceptions the module can raise.  stateError stands for the RuntimeError
raised on stage-order violations (the spec calls this kind StateError);
conversionError for a failure of the pluggable chapter factory; fsError for
OSError/FileExistsError coming from filesystem primitives. -/
inductive PyErr where
  | stateError (msg : String)
  | conversionError (msg : String)
  | fsError (msg : String)
deriving DecidableEq, Repr

/-- Modelled from the spec: the Page/Chapter record produced by a conversion
strategy (src/pypub/chapter.py is not part of the provided sources; spec
section 3 describes a Page as a title plus body content, immutable once
produced). -/
structure Chapter where
  title : String
  content : String
deriving DecidableEq, Repr

/-- builder.py Assignment dataclass: per-chapter identity. -/
structure Assignment where
  id : String
  link : String
  play_order : Int
deriving DecidableEq, Repr

/-- builder.py EpubDirs dataclass: the five resolved paths of one build. -/
structure EpubDirs where
  basedir : String
  oebps : String
  metainf : String
  images : String
  styles : String
deriving DecidableEq, Repr

/-- builder.py MimeFile named tuple used by index(). -/
structure MimeFile where
  name : String
  mime : String
deriving DecidableEq, Repr

/-- builder.py EpubSpec dataclass.  The date field (an opaque timestamp only
ever passed to templates), the logger (a pure sink) and the factory (passed
explicitly to render_chapter below, mirroring self.factory = epub.factory)
are external collaborators and carry no data the claims depend on. -/
structure EpubSpec where
  title : String
  creator : String := "pypub"
  subtitle : String := ""
  language : String := "en"
  rights : String := ""
  publisher : String := "pypub"
  encoding : String := "utf-8"
  epub_dir : Option String := none
  css_paths : List String := []
deriving DecidableEq, Repr

/-- the jinja2 page template, treated as a black box: given the epub spec and
the styles listing it returns the rendered cover text (builder.py line 166
renders it with kwargs epub and styles). -/
abbrev Template := EpubSpec → List String → String

/-- a directory's regular files, in listing order: (filename, content). -/
abbrev Files := List (String × String)

/-- filenames of a directory listing (os.listdir order = insertion order in
this model). -/
def fileNames (fs : Files) : List String := fs.map Prod.fst

/-- writing a file into a directory: open(...,'w') / shutil.copyfile
overwrite an existing entry of the same name and otherwise append a new
directory entry. -/
def upsert (fs : Files) (name content : String) : Files :=
  if fs.any (fun p => p.1 == name) then
    fs.map (fun p => if p.1 == name then (name, content) else p)
  else fs ++ [(name, content)]

/-- the on-disk working tree of one build.  epub_dirs always creates exactly
this skeleton (basedir with subdirectories OEBPS and META-INF, OEBPS with
subdirectories images and styles), and every write the builder performs lands
in one of these five directories, so the tree is represented by its five file
listings. -/
structure Layout where
  rootFiles : Files
  metainfFiles : Files
  oebpsFiles : Files
  imageFiles : Files
  styleFiles : Files
deriving DecidableEq, Repr

/-- the filesystem state owned by one build: the working tree if it currently
exists on disk. -/
structure World where
  layout : Option Layout

/-- result of ChapterFactory.render: the files it copied into the images
directory while resolving references, and the rendered chapter bytes. -/
structure RenderOut where
  images : Files
  content : String
deriving DecidableEq, Repr

/-- the pluggable conversion strategy interface: render a chapter or fail
with a ConversionError (spec section 4.3); the logger, images directory and
template arguments of the Python method are fixed per build and carried by
the closure. -/
abbrev Factory := Chapter → Except PyErr RenderOut

/-- context handed to the index templates (the kwargs dict built by
builder.py index()). -/
structure IndexCtx where
  uid : String
  epub : EpubSpec
  styles : List String
  chapters : List (Assignment × Chapter)
  images : List MimeFile

/-- the ambient external collaborators: the bundled static asset contents
(copy_static sources), user file contents (copy_file sources), the page
template and the two index templates of the jinja2 environment. -/
structure Env where
  pageTemplate : Template
  static : String → String
  readFile : String → String
  renderNCX : IndexCtx → String
  renderOPF : IndexCtx → String

/-- the EpubBuilder object state (its __init__ fields; uid is the externally
drawn uuid4). -/
structure Builder where
  uid : String
  epub : EpubSpec
  encoding : String
  dirs : Option EpubDirs
  template : Option Template
  chapters : List (Assignment × Chapter)

/-- EpubBuilder.__init__. -/
def mkBuilder (uid : String) (epub : EpubSpec) : Builder :=
  { uid := uid, epub := epub, encoding := epub.encoding,
    dirs := none, template := none, chapters := [] }

/-- builder.py epub_dirs path computation: the five directory paths created
under the base directory. -/
def epub_dirs (base : String) : EpubDirs :=
  { basedir := base
    oebps := pjoin base "OEBPS"
    metainf := pjoin base "META-INF"
    images := pjoin (pjoin base "OEBPS") "images"
    styles := pjoin (pjoin base "OEBPS") "styles" }

/-- EpubBuilder.begin.  fresh is the name tempfile.mkdtemp would allocate
when no fixed epub_dir is configured.  The Python method assigns
self.template only when it is unset; writing back the value it already holds
is the same state change, which lets the embedding bind the template
unconditionally.  os.makedirs raises FileExistsError when the directories
already exist (the world already holds a tree), modelling spec section 4.1.
On the first pass the method copies the mimetype marker into the base
directory, container.xml into META-INF, the two bundled stylesheets plus
every configured user stylesheet into styles, and writes the rendered cover
into OEBPS. -/
def begin (env : Env) (b : Builder) (w : World) (fresh : String) :
    Except PyErr (Builder × World × EpubDirs) :=
  let tmpl := b.template.getD env.pageTemplate
  let b1 := { b with template := some tmpl }
  match b1.dirs with
  | some d => .ok (b1, w, d)
  | none =>
    match w.layout with
    | some _ => .error (.fsError "os.makedirs: directories already exist")
    | none =>
      let base := b1.epub.epub_dir.getD fresh
      let dirs := epub_dirs base
      let styles0 : Files :=
        [("coverpage.css", env.static "css/coverpage.css"),
         ("styles.css", env.static "css/styles.css")]
      let styles :=
        b1.epub.css_paths.foldl (fun fs p => upsert fs (basename p) (env.readFile p)) styles0
      let cover := tmpl b1.epub (fileNames styles)
      let layout : Layout :=
        { rootFiles := [("mimetype", env.static "mimetype")]
          metainfFiles := [("container.xml", env.static "container.xml")]
          oebpsFiles := [("coverpage.xhtml", cover)]
          imageFiles := []
          styleFiles := styles }
      .ok ({ b1 with dirs := some dirs }, { w with layout := some layout }, dirs)

/-- EpubBuilder.render_chapter.  The guard is the literal Python check
`if not self.dirs or not self.template` (both dataclass and jinja Template
instances are always truthy).  The (assign, chapter) pair is appended to
self.chapters BEFORE the factory render and the file write, so the append
survives any later failure.  On success the factory's image copies land in
the images directory and the rendered bytes are written to
OEBPS/<assign.link>. -/
def render_chapter (factory : Factory) (b : Builder) (w : World)
    (assign : Assignment) (chapter : Chapter) :
    (Builder × World) × Except PyErr Unit :=
  match b.dirs, b.template with
  | some _, some _ =>
    let b1 := { b with chapters := b.chapters ++ [(assign, chapter)] }
    match factory chapter with
    | .error e => ((b1, w), .error e)
    | .ok out =>
      match w.layout with
      | none => ((b1, w), .error (.fsError "open: no such directory"))
      | some l =>
        let l1 :=
          { l with
            imageFiles := out.images.foldl (fun fs p => upsert fs p.1 p.2) l.imageFiles
            oebpsFiles := upsert l.oebpsFiles assign.link out.content }
        ((b1, { w with layout := some l1 }), .ok ())
  | _, _ => ((b, w), .error (.stateError "cannot render_chapter before begin"))

/-- the kwargs dict built by EpubBuilder.index: unique build id, the spec,
the styles listing, the accumulated chapters in insertion order, and the
images listing labelled by extension. -/
def indexCtx (b : Builder) (l : Layout) : IndexCtx :=
  { uid := b.uid
    epub := b.epub
    styles := fileNames l.styleFiles
    chapters := b.chapters
    images := (fileNames l.imageFiles).map (fun f => { name := f, mime := get_extension f }) }

/-- EpubBuilder.index: requires begin (self.dirs set), renders book.ncx and
book.opf from the shared context and writes them into OEBPS.  os.listdir on
a missing tree raises. -/
def index (env : Env) (b : Builder) (w : World) : World × Except PyErr Unit :=
  match b.dirs with
  | none => (w, .error (.stateError "cannot index epub before begin"))
  | some _ =>
    match w.layout with
    | none => (w, .error (.fsError "os.listdir: no such directory"))
    | some l =>
      let ctx := indexCtx b l
      let l1 :=
        { l with
          oebpsFiles :=
            upsert (upsert l.oebpsFiles "book.ncx" (env.renderNCX ctx))
              "book.opf" (env.renderOPF ctx) }
      ({ w with layout := some l1 }, .ok ())

/-- compression method of one zip member: ZIP_STORED when the walked filename
is exactly 'mimetype' (builder.py line 223), otherwise the ZipFile default
ZIP_DEFLATED the archive was opened with (line 217). -/
inductive Method where
  | stored
  | deflated
deriving DecidableEq, Repr

/-- one member written into the archive: its normalized arcname and its
compression method. -/
structure ZipMember where
  arcname : String
  method : Method
deriving DecidableEq, Repr

/-- the method chosen by builder.py line 223 for a walked file. -/
def methodFor (file : String) : Method :=
  if file = "mimetype" then Method.stored else Method.deflated

/-- os.walk over the fixed working-tree skeleton, top-down, paired with the
relpath string computed by line 219 (root.split(basedir, 1)[1]): empty for
the base directory itself and '/'-prefixed for every subdirectory.
Subdirectories are visited in creation order (the listing order the OS
returns is unspecified; the claims proved below do not depend on which fixed
order is chosen, and the base directory itself is always walked first). -/
def walkLayout (l : Layout) : List (String × List String) :=
  [("", fileNames l.rootFiles),
   ("/OEBPS", fileNames l.oebpsFiles),
   ("/OEBPS/images", fileNames l.imageFiles),
   ("/OEBPS/styles", fileNames l.styleFiles),
   ("/META-INF", fileNames l.metainfFiles)]

/-- the members zipf.write produces for one walked directory: arcname =
normalized os.path.join(relpath, file), method per methodFor. -/
def zipEntries (rf : String × List String) : List ZipMember :=
  rf.2.map (fun file => { arcname := normArc (pjoin rf.1 file), method := methodFor file })

/-- every member written into the archive by the walk loop of compress, in
write order. -/
def zipMembers (l : Layout) : List ZipMember :=
  ((walkLayout l).map zipEntries).flatten

/-- observable filesystem actions compress performs outside the working
tree. -/
inductive FileEvent where
  | writeZip (path : String)
  | rename (src dst : String)
deriving DecidableEq, Repr

/-- result of EpubBuilder.compress: the final epub path, the temporary zip
path the archive was built under, the members written, and the event trace
(create/fill the zip at fzip, then os.rename it onto fpath). -/
structure CompressOut where
  fpath : String
  fzip : String
  members : List ZipMember
  trace : List FileEvent
deriving DecidableEq, Repr

/-- EpubBuilder.compress.  Python truthiness: an empty-string destination
counts as absent (`if fpath` is false for '').  The name defaults to the
epub title, the last '.epub' occurrence is stripped and the extension
re-appended, the directory defaults to '.', and the archive is built at the
'.zip' sibling path before being renamed onto the '.epub' path.  os.walk of
a missing tree yields nothing, so the members default to the empty list. -/
def compress (b : Builder) (w : World) (fpathArg : Option String) :
    Except PyErr CompressOut :=
  match b.dirs with
  | none => .error (.stateError "cannot finalize before begin")
  | some _ =>
    let pos : Option String :=
      match fpathArg with
      | some p => if p = "" then none else some p
      | none => none
    let fname := match pos with | some p => basename p | none => b.epub.title
    let fname := rsplitEpub fname ++ ".epub"
    let fdir := match pos with | some p => dirname p | none => "."
    let fpath := pjoin fdir fname
    let fzip := rsplitEpub fpath ++ ".zip"
    let members := match w.layout with | some l => zipMembers l | none => []
    .ok { fpath := fpath, fzip := fzip, members := members,
          trace := [FileEvent.writeZip fzip, FileEvent.rename fzip fpath] }

/-- EpubBuilder.cleanup: when a build has begun, shutil.rmtree removes the
base directory (ignore_errors=True, so removal never raises even if the tree
is already gone) and self.dirs is reset to None; otherwise nothing happens.
The function is total: no execution path raises. -/
def cleanup (b : Builder) (w : World) : Builder × World :=
  match b.dirs with
  | some _ => ({ b with dirs := none }, { w with layout := none })
  | none => (b, w)

/-- EpubBuilder.__enter__: runs begin and returns self (the state after
begin). -/
def enterCM (env : Env) (b : Builder) (w : World) (fresh : String) :
    Except PyErr (Builder × World) :=
  match begin env b w fresh with
  | .error e => .error e
  | .ok (b1, w1, _) => .ok (b1, w1)

/-- EpubBuilder.__exit__: runs cleanup regardless of the exception
information (the *_ parameters are ignored); it returns None, so a pending
exception keeps propagating. -/
def exitCM (b : Builder) (w : World) : Builder × World := cleanup b w

/-- one stage of the build a caller can run inside the coordinator's scope. -/
inductive Stage where
  | render (assign : Assignment) (chapter : Chapter)
  | doIndex
  | doCompress (fpathArg : Option String)

/-- run one stage against the current state. -/
def runStage (env : Env) (factory : Factory) (b : Builder) (w : World) :
    Stage → (Builder × World) × Except PyErr Unit
  | .render a c => render_chapter factory b w a c
  | .doIndex =>
    let (w1, r) := index env b w
    ((b, w1), r)
  | .doCompress p => ((b, w), (compress b w p).map (fun _ => ()))

/-- run a sequence of stages; an error (a raised Python exception) aborts the
remaining stages, as an exception unwinding out of the with-block body
would. -/
def runStages (env : Env) (factory : Factory) (b : Builder) (w : World) :
    List Stage → (Builder × World) × Except PyErr Unit
  | [] => ((b, w), .ok ())
  | s :: rest =>
    match runStage env factory b w s with
    | ((b1, w1), .ok _) => runStages env factory b1 w1 rest
    | ((b1, w1), .error e) => ((b1, w1), .error e)

/-- the with-statement `with EpubBuilder(spec) as b: <stages>` desugared with
this class's __enter__/__exit__: __enter__ runs begin (if it raises, the body
and __exit__ never run); the body runs the stages; __exit__ runs cleanup on
every exit path, normal or exceptional, and the body's exception (if any) is
re-raised because __exit__ returns a falsy value. -/
def withBuilder (env : Env) (factory : Factory) (b : Builder) (w : World)
    (fresh : String) (stages : List Stage) : (Builder × World) × Except PyErr Unit :=
  match enterCM env b w fresh with
  | .error e => ((b, w), .error e)
  | .ok (b1, w1) =>
    let ((b2, w2), r) := runStages env factory b1 w1 stages
    (exitCM b2 w2, r)

/-! Wellformedness of on-disk names.  Directory entries returned by a real
os.walk never contain a path separator; the lemmas about arcnames assume
this. -/

/-- a legal directory-entry name: contains no '/'. -/
def goodName (f : String) : Bool := f.data.all (fun c => c != '/')

/-- every filename of the working tree is a legal directory-entry name. -/
def goodLayout (l : Layout) : Bool :=
  (fileNames l.rootFiles).all goodName
    && (fileNames l.oebpsFiles).all goodName
    && (fileNames l.imageFiles).all goodName
    && (fileNames l.styleFiles).all goodName
    && (fileNames l.metainfFiles).all goodName

/-! Helper lemmas about the path primitives. -/

theorem startsSlash_of_good (f : String) (h : goodName f = true) :
    startsSlash f = false := by
  unfold goodName at h
  unfold startsSlash
  cases hd : f.data with
  | nil => rfl
  | cons c l =>
    rw [hd] at h
    simp [List.all_cons] at h
    simp [h.1]

theorem pjoin_sep (a f : String) (h1 : startsSlash f = false) (h2 : ¬ a = "")
    (h3 : endsSlash a = false) : pjoin a f = a ++ "/" ++ f := by
  unfold pjoin
  simp [h1, h2, h3]

theorem pjoin_empty (f : String) (h : startsSlash f = false) : pjoin "" f = f := by
  unfold pjoin
  simp [h]

theorem normArc_good (f : String) (h : goodName f = true) : normArc f = f := by
  apply String.ext
  simp only [normArc]
  unfold goodName at h
  cases hd : f.data with
  | nil => simp
  | cons c l =>
    rw [hd] at h
    simp [List.all_cons] at h
    simp [List.dropWhile_cons, h.1]

theorem normArc_oebps (f : String) :
    normArc ("/OEBPS" ++ "/" ++ f) = "OEBPS/" ++ f := by
  apply String.ext
  simp only [normArc, String.data_append]
  simp [List.dropWhile_cons]

theorem normArc_images (f : String) :
    normArc ("/OEBPS/images" ++ "/" ++ f) = "OEBPS/images/" ++ f := by
  apply String.ext
  simp only [normArc, String.data_append]
  simp [List.dropWhile_cons]

theorem normArc_styles (f : String) :
    normArc ("/OEBPS/styles" ++ "/" ++ f) = "OEBPS/styles/" ++ f := by
  apply String.ext
  simp only [normArc, String.data_append]
  simp [List.dropWhile_cons]

theorem normArc_metainf (f : String) :
    normArc ("/META-INF" ++ "/" ++ f) = "META-INF/" ++ f := by
  apply String.ext
  simp only [normArc, String.data_append]
  simp [List.dropWhile_cons]

theorem takeWhile_all_append (p : Char → Bool) (l1 l2 : List Char)
    (h : ∀ c ∈ l1, p c = true) (h2 : p '/' = false) :
    (l1 ++ '/' :: l2).takeWhile p = l1 := by
  induction l1 with
  | nil => simp [List.takeWhile_cons, h2]
  | cons c tl ih =>
    simp only [List.cons_append, List.takeWhile_cons]
    rw [h c (by simp)]
    simp [ih (fun x hx => h x (by simp [hx]))]

/-- the final path component of an archive member g/.../f with a slash-free
filename f is f itself. -/
theorem basename_append (g f : String) (h : goodName f = true) :
    basename (g ++ "/" ++ f) = f := by
  apply String.ext
  simp only [basename, String.data_append]
  rw [List.reverse_append, List.reverse_append]
  simp only [List.reverse_cons, List.reverse_nil, List.nil_append, List.append_assoc,
    List.singleton_append]
  rw [takeWhile_all_append _ _ _ ?_ (by decide)]
  · simp
  · intro c hc
    unfold goodName at h
    simp only [List.mem_reverse] at hc
    exact List.all_eq_true.mp h c hc

/-- the member list the walk loop of compress writes, rewritten with the
normalized arcnames made explicit: the base directory's files keep their bare
names, every other file is prefixed by its directory's path relative to the
base, and the method is chosen from the bare filename alone. -/
theorem zipMembers_eq (l : Layout) (hg : goodLayout l = true) :
    zipMembers l =
      (fileNames l.rootFiles).map (fun f => { arcname := f, method := methodFor f })
        ++ (fileNames l.oebpsFiles).map
            (fun f => { arcname := "OEBPS/" ++ f, method := methodFor f })
        ++ (fileNames l.imageFiles).map
            (fun f => { arcname := "OEBPS/images/" ++ f, method := methodFor f })
        ++ (fileNames l.styleFiles).map
            (fun f => { arcname := "OEBPS/styles/" ++ f, method := methodFor f })
        ++ (fileNames l.metainfFiles).map
            (fun f => { arcname := "META-INF/" ++ f, method := methodFor f }) := by
  unfold goodLayout at hg
  simp only [Bool.and_eq_true] at hg
  obtain ⟨⟨⟨⟨h1, h2⟩, h3⟩, h4⟩, h5⟩ := hg
  unfold zipMembers walkLayout zipEntries
  simp only [List.map_cons, List.map_nil, List.flatten_cons, List.flatten_nil,
    List.append_nil, List.append_assoc]
  congr 1
  · apply List.map_congr_left
    intro f hf
    have hgf := List.all_eq_true.mp h1 f hf
    rw [pjoin_empty f (startsSlash_of_good f hgf), normArc_good f hgf]
  congr 1
  · apply List.map_congr_left
    intro f hf
    have hgf := List.all_eq_true.mp h2 f hf
    rw [pjoin_sep _ f (startsSlash_of_good f hgf) (by decide) (by decide), normArc_oebps]
  congr 1
  · apply List.map_congr_left
    intro f hf
    have hgf := List.all_eq_true.mp h3 f hf
    rw [pjoin_sep _ f (startsSlash_of_good f hgf) (by decide) (by decide), normArc_images]
  congr 1
  · apply List.map_congr_left
    intro f hf
    have hgf := List.all_eq_true.mp h4 f hf
    rw [pjoin_sep _ f (startsSlash_of_good f hgf) (by decide) (by decide), normArc_styles]
  · apply List.map_congr_left
    intro f hf
    have hgf := List.all_eq_true.mp h5 f hf
    rw [pjoin_sep _ f (startsSlash_of_good f hgf) (by decide) (by decide), normArc_metainf]

/-! Structure-update projection helpers. -/

theorem builder_set_dirs_none (b : Builder) :
    ({ b with dirs := none } : Builder).dirs = none := by
  cases b
  rfl

theorem world_set_layout_none (w : World) :
    ({ w with layout := none } : World).layout = none := by
  cases w
  rfl

theorem cleanup_dirs_eq_none (b : Builder) (w : World) :
    (cleanup b w).1.dirs = none := by
  unfold cleanup
  cases h : b.dirs with
  | none => simpa using h
  | some d => simp [builder_set_dirs_none]

theorem cleanup_layout_eq_none (b : Builder) (w : World) (h : b.dirs ≠ none) :
    (cleanup b w).2.layout = none := by
  unfold cleanup
  cases hd : b.dirs with
  | none => exact absurd hd h
  | some d => simp [world_set_layout_none]

/-! Concrete instances used to exercise the theorems on closed inputs.  The
collaborator functions are arbitrary total stand-ins; no claim depends on
their output text. -/

def env0 : Env :=
  { pageTemplate := fun _ _ => "COVER"
    static := fun name => "STATIC:" ++ name
    readFile := fun p => "FILE:" ++ p
    renderNCX := fun _ => "NCX"
    renderOPF := fun _ => "OPF" }

def spec0 : EpubSpec := { title := "Book" }

def b0 : Builder := mkBuilder "uid-0" spec0

def w0 : World := { layout := none }

def ch0 : Chapter := { title := "Chapter One", content := "Hello" }

def factory0 : Factory := fun c => .ok { images := [], content := "HTML:" ++ c.content }

def factoryFail : Factory := fun _ => .error (.conversionError "cannot interpret source")

/-- the builder state after a successful begin on b0 with temp dir /t. -/
def begunB : Builder :=
  { b0 with dirs := some (epub_dirs "/t"), template := some env0.pageTemplate }

/-- the working tree begin creates from spec0 under env0. -/
def begunLayout : Layout :=
  { rootFiles := [("mimetype", "STATIC:mimetype")]
    metainfFiles := [("container.xml", "STATIC:container.xml")]
    oebpsFiles := [("coverpage.xhtml", "COVER")]
    imageFiles := []
    styleFiles := [("coverpage.css", "STATIC:css/coverpage.css"),
                   ("styles.css", "STATIC:css/styles.css")] }

def begunW : World := { layout := some begunLayout }

/-! Claim theorems. -/

/-- Claim C2: on a coordinator on which begin has not been called (self.dirs
is still None, exactly as __init__ leaves it), render_chapter, index and
compress each fail with the stage-order StateError (the RuntimeError of
builder.py lines 173, 189 and 208) and perform no state change: the builder,
the accumulator and the filesystem are returned untouched and no archive
output is produced. -/
theorem before_begin_state_error (env : Env) (factory : Factory) (b : Builder)
    (w : World) (a : Assignment) (c : Chapter) (p : Option String)
    (h : b.dirs = none) :
    render_chapter factory b w a c
        = ((b, w), .error (.stateError "cannot render_chapter before begin")) ∧
    index env b w = (w, .error (.stateError "cannot index epub before begin")) ∧
    compress b w p = .error (.stateError "cannot finalize before begin") := by
  refine ⟨?_, ?_, ?_⟩
  · cases ht : b.template <;> simp [render_chapter, h, ht]
  · simp [index, h]
  · simp [compress, h]

/-- Witness for C2 at the freshly constructed builder b0. -/
theorem before_begin_state_error_witness :
    render_chapter factory0 b0 w0 { id := "c1", link := "c1.xhtml", play_order := 1 } ch0
        = ((b0, w0), .error (.stateError "cannot render_chapter before begin")) ∧
    index env0 b0 w0 = (w0, .error (.stateError "cannot index epub before begin")) ∧
    compress b0 w0 none = .error (.stateError "cannot finalize before begin") :=
  before_begin_state_error env0 factory0 b0 w0
    { id := "c1", link := "c1.xhtml", play_order := 1 } ch0 none rfl

/-- Claim C7: cleanup always leaves the coordinator's stage state
uninitialized (self.dirs = None, which is the condition every staged
operation tests), removes the working tree from disk whenever a build had
begun (shutil.rmtree with ignore_errors=True, so removal itself never
raises), and is a no-op when no build has begun.  cleanup is a total
function of the state: no execution path raises an error. -/
theorem cleanup_resets (b : Builder) (w : World) :
    (cleanup b w).1.dirs = none ∧
    (b.dirs ≠ none → (cleanup b w).2.layout = none) ∧
    (b.dirs = none → cleanup b w = (b, w)) := by
  refine ⟨cleanup_dirs_eq_none b w, fun h => cleanup_layout_eq_none b w h, fun h => ?_⟩
  unfold cleanup
  rw [h]

/-- Witness for C7: a began coordinator is fully cleaned, and cleanup on the
fresh coordinator b0 is an error-free no-op. -/
theorem cleanup_resets_witness :
    ((cleanup begunB begunW).1.dirs = none ∧ (cleanup begunB begunW).2.layout = none) ∧
    cleanup b0 w0 = (b0, w0) :=
  ⟨⟨(cleanup_resets begunB begunW).1,
    (cleanup_resets begunB begunW).2.1 (by simp [begunB])⟩,
   (cleanup_resets b0 w0).2.2 rfl⟩

/-- Claim C8: when the conversion strategy fails, render_chapter surfaces the
very ConversionError the factory raised (no retry, no substitution), and the
coordinator stays in the began state: self.dirs and self.template keep their
values, so the caller may retry the chapter or skip it and continue the
build. -/
theorem conversion_error_propagates (factory : Factory) (b : Builder)
    (w : World) (a : Assignment) (c : Chapter) (d : EpubDirs) (t : Template)
    (msg : String) (hd : b.dirs = some d) (ht : b.template = some t)
    (hf : factory c = .error (.conversionError msg)) :
    render_chapter factory b w a c
        = (({ b with chapters := b.chapters ++ [(a, c)] }, w),
           .error (.conversionError msg)) ∧
    (render_chapter factory b w a c).1.1.dirs = some d ∧
    (render_chapter factory b w a c).1.1.template = some t := by
  have hmain : render_chapter factory b w a c
      = (({ b with chapters := b.chapters ++ [(a, c)] }, w),
         .error (.conversionError msg)) := by
    unfold render_chapter
    rw [hd, ht, hf]
  refine ⟨hmain, ?_, ?_⟩ <;> (rw [hmain]; cases b; simp_all)

/-- Witness for C8 with the always-failing factory on the began state. -/
theorem conversion_error_propagates_witness :
    render_chapter factoryFail begunB begunW
        { id := "c1", link := "c1.xhtml", play_order := 1 } ch0
      = (({ begunB with
              chapters := begunB.chapters
                ++ [({ id := "c1", link := "c1.xhtml", play_order := 1 }, ch0)] },
          begunW),
         .error (.conversionError "cannot interpret source")) :=
  (conversion_error_propagates factoryFail begunB begunW
    { id := "c1", link := "c1.xhtml", play_order := 1 } ch0
    (epub_dirs "/t") env0.pageTemplate "cannot interpret source" rfl rfl rfl).1

/-- Claim C10: render_chapter appends the (assignment, chapter) pair to the
accumulator before the factory render and the file write happen, so whatever
the render outcome is (success, a ConversionError, or a filesystem failure of
the write), the pair is in the accumulator afterwards, and the context a
later index() builds (its kwargs dict) lists the failed chapter. -/
theorem render_appends_before_failure (factory : Factory) (b : Builder)
    (w : World) (a : Assignment) (c : Chapter) (d : EpubDirs) (t : Template)
    (hd : b.dirs = some d) (ht : b.template = some t) :
    (render_chapter factory b w a c).1.1.chapters = b.chapters ++ [(a, c)] ∧
    ∀ l : Layout,
      (indexCtx (render_chapter factory b w a c).1.1 l).chapters
        = b.chapters ++ [(a, c)] := by
  have hch : (render_chapter factory b w a c).1.1.chapters = b.chapters ++ [(a, c)] := by
    unfold render_chapter
    rw [hd, ht]
    cases hf : factory c with
    | error e => cases b; simp
    | ok out =>
      cases hl : w.layout with
      | none => cases b; simp
      | some l => cases b; simp
  exact ⟨hch, fun l => hch⟩

/-- Witness for C10: the failing factory still leaves the pair recorded. -/
theorem render_appends_before_failure_witness :
    (render_chapter factoryFail begunB begunW
        { id := "c1", link := "c1.xhtml", play_order := 1 } ch0).1.1.chapters
      = begunB.chapters ++ [({ id := "c1", link := "c1.xhtml", play_order := 1 }, ch0)] :=
  (render_appends_before_failure factoryFail begunB begunW
    { id := "c1", link := "c1.xhtml", play_order := 1 } ch0
    (epub_dirs "/t") env0.pageTemplate rfl rfl).1

/-! Stage-sequencing lemmas: no staged operation ever changes self.dirs, and
a successful begin always leaves self.dirs and self.template set. -/

theorem builder_set_chapters_dirs (b : Builder) (ch : List (Assignment × Chapter)) :
    ({ b with chapters := ch } : Builder).dirs = b.dirs := by
  cases b
  rfl

theorem builder_set_chapters_template (b : Builder) (ch : List (Assignment × Chapter)) :
    ({ b with chapters := ch } : Builder).template = b.template := by
  cases b
  rfl

theorem builder_set_chapters_chapters (b : Builder)
    (ch : List (Assignment × Chapter)) :
    ({ b with chapters := ch } : Builder).chapters = ch := by
  cases b
  rfl

theorem builder_set_template_self (b : Builder) (t : Template)
    (h : b.template = some t) : ({ b with template := some t } : Builder) = b := by
  cases b
  cases h
  rfl

theorem render_chapter_dirs_eq (factory : Factory) (b : Builder) (w : World)
    (a : Assignment) (c : Chapter) :
    (render_chapter factory b w a c).1.1.dirs = b.dirs := by
  obtain ⟨u, e, enc, dirs, tmpl, chs⟩ := b
  obtain ⟨lay⟩ := w
  cases dirs <;> cases tmpl <;> cases hf : factory c <;> cases lay <;>
    simp [render_chapter, hf]

theorem runStage_dirs_eq (env : Env) (factory : Factory) (b : Builder) (w : World)
    (s : Stage) : (runStage env factory b w s).1.1.dirs = b.dirs := by
  cases s with
  | render a c => exact render_chapter_dirs_eq factory b w a c
  | doIndex =>
    rcases h : index env b w with ⟨w1, r⟩
    simp [runStage, h]
  | doCompress p => rfl

theorem runStages_dirs_eq (env : Env) (factory : Factory) (ss : List Stage) :
    ∀ (b : Builder) (w : World), (runStages env factory b w ss).1.1.dirs = b.dirs := by
  induction ss with
  | nil => intro b w; rfl
  | cons s rest ih =>
    intro b w
    rcases hrs : runStage env factory b w s with ⟨⟨bb, ww⟩, r⟩
    have hbb : bb.dirs = b.dirs := by
      have := runStage_dirs_eq env factory b w s
      rw [hrs] at this
      exact this
    cases r with
    | ok _ =>
      simp only [runStages, hrs]
      rw [ih bb ww, hbb]
    | error e => simp [runStages, hrs, hbb]

theorem begin_ok_shape (env : Env) (b b1 : Builder) (w w1 : World)
    (fresh : String) (d : EpubDirs) (h : begin env b w fresh = .ok (b1, w1, d)) :
    b1.dirs = some d ∧ b1.template = some (b.template.getD env.pageTemplate) := by
  obtain ⟨u, e, enc, dirs, tmpl, chs⟩ := b
  obtain ⟨lay⟩ := w
  cases dirs with
  | some d0 =>
    simp only [begin, Except.ok.injEq, Prod.mk.injEq] at h
    obtain ⟨hb, hw, hd⟩ := h
    subst hb
    subst hd
    exact ⟨rfl, rfl⟩
  | none =>
    cases lay with
    | some l => simp [begin] at h
    | none =>
      simp only [begin, Except.ok.injEq, Prod.mk.injEq] at h
      obtain ⟨hb, hw, hd⟩ := h
      subst hb
      subst hd
      exact ⟨rfl, rfl⟩

/-- Claim C4: a second begin() on a coordinator whose first begin() succeeded
returns exactly the same (builder, filesystem, layout) triple: the very
EpubDirs value of the first call, no error, and no filesystem effect at all
(the world component is returned untouched, so no directory is created and no
asset is re-copied; the early return at builder.py line 149 fires because
self.dirs is set). -/
theorem begin_idempotent (env : Env) (b b1 : Builder) (w w1 : World)
    (fresh fresh2 : String) (d : EpubDirs)
    (h : begin env b w fresh = .ok (b1, w1, d)) :
    begin env b1 w1 fresh2 = .ok (b1, w1, d) := by
  obtain ⟨hdr, htm⟩ := begin_ok_shape env b b1 w w1 fresh d h
  unfold begin
  simp only [htm, Option.getD_some]
  rw [builder_set_template_self b1 (b.template.getD env.pageTemplate) htm, hdr]

/-- Witness for C4: the concrete first begin on b0 and the second begin on
its result agree. -/
theorem begin_idempotent_witness :
    begin env0 b0 w0 "/t" = .ok (begunB, begunW, epub_dirs "/t") ∧
    begin env0 begunB begunW "/u" = .ok (begunB, begunW, epub_dirs "/t") :=
  ⟨rfl, begin_idempotent env0 b0 begunB w0 begunW "/t" "/u" (epub_dirs "/t") rfl⟩

/-- accumulator contents after a run of successful render stages: every
submitted pair is appended in submission order. -/
theorem renderStages_chapters (env : Env) (factory : Factory)
    (inputs : List (Assignment × Chapter)) :
    ∀ (b : Builder) (w : World) (d : EpubDirs) (t : Template),
      b.dirs = some d → b.template = some t →
      (runStages env factory b w (inputs.map (fun p => Stage.render p.1 p.2))).2
        = .ok () →
      (runStages env factory b w (inputs.map (fun p => Stage.render p.1 p.2))).1.1.chapters
        = b.chapters ++ inputs := by
  induction inputs with
  | nil =>
    intro b w d t hd ht _
    simp [runStages]
  | cons p rest ih =>
    intro b w d t hd ht hok
    obtain ⟨a, c⟩ := p
    obtain ⟨u, e, enc, dirs, tmpl, chs⟩ := b
    replace hd : dirs = some d := hd
    replace ht : tmpl = some t := ht
    subst hd
    subst ht
    simp only [List.map_cons] at hok ⊢
    cases hf : factory c with
    | error e =>
      simp [runStages, runStage, render_chapter, hf] at hok
    | ok out =>
      cases hl : w.layout with
      | none =>
        simp [runStages, runStage, render_chapter, hf, hl] at hok
      | some l =>
        simp only [runStages, runStage, render_chapter, hf, hl] at hok ⊢
        rw [ih _ _ d t rfl rfl hok]
        simp

/-- Claim C3: starting from a began coordinator with an empty accumulator,
N successful render_chapter calls leave the accumulator holding exactly the N
(assignment, chapter) pairs in call order.  The inputs list is universally
quantified, so arbitrary play-order values (duplicated, unordered, negative)
produce the same result: no deduplication, reordering or validation happens,
only an append per call. -/
theorem render_accumulator_order (env : Env) (factory : Factory) (b : Builder)
    (w : World) (inputs : List (Assignment × Chapter)) (d : EpubDirs)
    (t : Template) (hd : b.dirs = some d) (ht : b.template = some t)
    (hc : b.chapters = [])
    (hok : (runStages env factory b w (inputs.map (fun p => Stage.render p.1 p.2))).2
        = .ok ()) :
    (runStages env factory b w (inputs.map (fun p => Stage.render p.1 p.2))).1.1.chapters
      = inputs := by
  rw [renderStages_chapters env factory inputs b w d t hd ht hok, hc]
  simp

/-- Witness for C3: three chapters submitted with play orders 3, 1, 2 end up
in the accumulator in submission order with those play orders untouched. -/
theorem render_accumulator_order_witness :
    (runStages env0 factory0 begunB begunW
        ([({ id := "a", link := "a.xhtml", play_order := 3 }, ch0),
          ({ id := "b", link := "b.xhtml", play_order := 1 }, ch0),
          ({ id := "c", link := "c.xhtml", play_order := 2 }, ch0)].map
          (fun p => Stage.render p.1 p.2))).1.1.chapters
      = [({ id := "a", link := "a.xhtml", play_order := 3 }, ch0),
         ({ id := "b", link := "b.xhtml", play_order := 1 }, ch0),
         ({ id := "c", link := "c.xhtml", play_order := 2 }, ch0)] :=
  render_accumulator_order env0 factory0 begunB begunW
    [({ id := "a", link := "a.xhtml", play_order := 3 }, ch0),
     ({ id := "b", link := "b.xhtml", play_order := 1 }, ch0),
     ({ id := "c", link := "c.xhtml", play_order := 2 }, ch0)]
    (epub_dirs "/t") env0.pageTemplate rfl rfl rfl (by rfl)

/-- Claim C9: used as a scoped resource (the with statement running __enter__
= begin and __exit__ = cleanup), a build whose acquisition succeeded always
ends with the working tree removed and the coordinator back in the
uninitialized stage, on every exit path: the stages may all succeed or any
stage may raise (the error aborts the remaining stages, is preserved across
__exit__ because __exit__ returns a falsy value, and cleanup still runs). -/
theorem scoped_cleanup (env : Env) (factory : Factory) (b b1 : Builder)
    (w w1 : World) (fresh : String) (stages : List Stage) (d : EpubDirs)
    (h : begin env b w fresh = .ok (b1, w1, d)) :
    (withBuilder env factory b w fresh stages).1.1.dirs = none ∧
    (withBuilder env factory b w fresh stages).1.2.layout = none ∧
    (withBuilder env factory b w fresh stages).2
      = (runStages env factory b1 w1 stages).2 := by
  have hb1 : b1.dirs = some d := (begin_ok_shape env b b1 w w1 fresh d h).1
  rcases hrs : runStages env factory b1 w1 stages with ⟨⟨b2, w2⟩, r⟩
  have hb2 : b2.dirs = some d := by
    have hpres := runStages_dirs_eq env factory stages b1 w1
    rw [hrs] at hpres
    simp at hpres
    rw [hpres, hb1]
  have hwb : withBuilder env factory b w fresh stages = (cleanup b2 w2, r) := by
    unfold withBuilder enterCM
    simp only [h, hrs, exitCM]
  rw [hwb]
  exact ⟨cleanup_dirs_eq_none b2 w2,
    cleanup_layout_eq_none b2 w2 (by simp [hb2]), rfl⟩

/-- Witness for C9: a scoped build whose chapter conversion fails still ends
cleaned, and the ConversionError propagates out of the scope. -/
theorem scoped_cleanup_witness :
    (withBuilder env0 factoryFail b0 w0 "/t"
        [Stage.render { id := "c1", link := "c1.xhtml", play_order := 1 } ch0,
         Stage.doIndex]).1.1.dirs = none ∧
    (withBuilder env0 factoryFail b0 w0 "/t"
        [Stage.render { id := "c1", link := "c1.xhtml", play_order := 1 } ch0,
         Stage.doIndex]).1.2.layout = none ∧
    (withBuilder env0 factoryFail b0 w0 "/t"
        [Stage.render { id := "c1", link := "c1.xhtml", play_order := 1 } ch0,
         Stage.doIndex]).2
      = (runStages env0 factoryFail begunB begunW
          [Stage.render { id := "c1", link := "c1.xhtml", play_order := 1 } ch0,
           Stage.doIndex]).2 :=
  scoped_cleanup env0 factoryFail b0 begunB w0 begunW "/t"
    [Stage.render { id := "c1", link := "c1.xhtml", play_order := 1 } ch0,
     Stage.doIndex]
    (epub_dirs "/t") rfl

/-! Archive round-trip (C5). -/

/-- the path of each file of the working tree relative to the base
directory, in walk order. -/
def relPaths (l : Layout) : List String :=
  fileNames l.rootFiles
    ++ (fileNames l.oebpsFiles).map (fun f => "OEBPS/" ++ f)
    ++ (fileNames l.imageFiles).map (fun f => "OEBPS/images/" ++ f)
    ++ (fileNames l.styleFiles).map (fun f => "OEBPS/styles/" ++ f)
    ++ (fileNames l.metainfFiles).map (fun f => "META-INF/" ++ f)

/-- Claim C5: whenever compress succeeds on a working tree, the arcnames of
the members it writes are exactly the paths of the tree's files relative to
the base directory, with multiplicity and nothing else: every file under the
base appears at its relative path and the archive holds no other member.
(The leading separator that line 219's relpath computation leaves on
subdirectory paths is stripped by zipfile's arcname normalization.) -/
theorem compress_roundtrip (b : Builder) (w : World) (p : Option String)
    (out : CompressOut) (l : Layout) (hl : w.layout = some l)
    (hg : goodLayout l = true) (h : compress b w p = .ok out) :
    out.members.map ZipMember.arcname = relPaths l := by
  have hmem : out.members = zipMembers l := by
    cases hd : b.dirs with
    | none => simp [compress, hd] at h
    | some d =>
      simp only [compress, hd, hl, Except.ok.injEq] at h
      rw [← h]
  rw [hmem, zipMembers_eq l hg]
  simp [relPaths, List.map_append, List.map_map, Function.comp_def]

/-- the concrete compress output for the begun example build. -/
def outBook : CompressOut :=
  { fpath := "./Book.epub"
    fzip := "./Book.zip"
    members := [{ arcname := "mimetype", method := Method.stored },
                { arcname := "OEBPS/coverpage.xhtml", method := Method.deflated },
                { arcname := "OEBPS/styles/coverpage.css", method := Method.deflated },
                { arcname := "OEBPS/styles/styles.css", method := Method.deflated },
                { arcname := "META-INF/container.xml", method := Method.deflated }]
    trace := [FileEvent.writeZip "./Book.zip",
              FileEvent.rename "./Book.zip" "./Book.epub"] }

/-- Witness for C5 on the begun example build. -/
theorem compress_roundtrip_witness :
    begunW.layout = some begunLayout ∧ goodLayout begunLayout = true ∧
    compress begunB begunW none = .ok outBook ∧
    outBook.members.map ZipMember.arcname = relPaths begunLayout :=
  ⟨rfl, by decide, by rfl,
   compress_roundtrip begunB begunW none outBook begunLayout rfl (by decide) (by rfl)⟩

/-! Archive filename resolution (C6). -/

theorem startsSlash_append (s t : String) (hs : startsSlash s = false)
    (ht : startsSlash t = false) : startsSlash (s ++ t) = false := by
  unfold startsSlash at hs ht ⊢
  rw [String.data_append]
  cases hd : s.data with
  | nil => simpa using ht
  | cons c l =>
    rw [hd] at hs
    simpa using hs

theorem pjoin_dot (f : String) (h : startsSlash f = false) :
    pjoin "." f = "./" ++ f := by
  rw [pjoin_sep "." f h (by decide) (by decide),
    show ("." : String) ++ "/" = "./" by decide]

theorem pjoin_suffix (a b : String) : ∃ x, pjoin a b = x ++ b := by
  unfold pjoin
  by_cases h1 : startsSlash b
  · exact ⟨"", by simp [h1]⟩
  · by_cases h2 : a = ""
    · exact ⟨a, by simp [h1, h2]⟩
    · by_cases h3 : endsSlash a
      · exact ⟨a, by simp [h1, h2, h3]⟩
      · exact ⟨a ++ "/", by simp [h1, h2, h3]⟩

theorem zip_ne_epub (x y : String) : x ++ ".zip" ≠ y ++ ".epub" := by
  intro h
  have hlast := congrArg (fun s => s.data.getLast?) h
  simp only [String.data_append, List.getLast?_append] at hlast
  rw [show (".zip".data.getLast?) = some 'p' by decide,
    show (".epub".data.getLast?) = some 'b' by decide] at hlast
  simp at hlast

/-- the temporary zip path compress builds under is never the final epub
path: the one ends in ".zip", the other in ".epub". -/
theorem compress_fzip_ne (fdir fname0 : String) :
    rsplitEpub (pjoin fdir (fname0 ++ ".epub")) ++ ".zip"
      ≠ pjoin fdir (fname0 ++ ".epub") := by
  obtain ⟨x, hx⟩ := pjoin_suffix fdir (fname0 ++ ".epub")
  rw [hx, ← String.append_assoc]
  exact zip_ne_epub _ _

theorem startsSlash_append_true (s t : String) (hs : startsSlash s = true) :
    startsSlash (s ++ t) = true := by
  unfold startsSlash at hs ⊢
  rw [String.data_append]
  cases hd : s.data with
  | nil => rw [hd] at hs; simp at hs
  | cons c l =>
    rw [hd] at hs
    simpa using hs

/-- a began build with the absolute-path title "/x": the title is
unrestricted caller input, and begin never reads it, so begin succeeds and
compress consumes it for the default archive name. -/
def absRun : Except PyErr CompressOut :=
  match begin env0 (mkBuilder "uid-1" { title := "/x" }) w0 "/t" with
  | .ok (bb, ww, _) => compress bb ww none
  | .error e => .error e

/-- the archive path that build resolves with no destination supplied. -/
def absFpath : String :=
  match absRun with
  | .ok out => out.fpath
  | .error _ => ""

/-- Claim C6 counterexample: the claim says that with no destination the
archive is created at the sanitized title plus ".epub" IN THE CURRENT
WORKING DIRECTORY, but for the title "/x" the computed name "/x.epub" is
absolute, so os.path.join('.', '/x.epub') at builder.py line 213 discards
'.' entirely: the resolved destination is the absolute path "/x.epub",
which starts with the path separator and is not the CWD-relative
"./" ++ name that every non-absolute title produces. -/
theorem compress_naming_cex :
    absFpath = "/x.epub" ∧
    startsSlash absFpath = true ∧
    absFpath ≠ "./" ++ (rsplitEpub "/x" ++ ".epub") := by
  refine ⟨rfl, rfl, ?_⟩
  decide

/-- Claim C6 (amended): compress resolves the final archive filename as
follows.  With no destination (or the falsy empty string), the name is the
sanitized build title (its trailing ".epub", if any, stripped by rsplit)
plus the forced ".epub" extension, joined under "." — which places the
archive in the current working directory whenever the sanitized title is
not an absolute path, while a title that itself starts with the path
separator makes os.path.join discard "." and the archive is created at that
absolute path.  With a destination, its basename has the ".epub" extension
forced and its dirname is kept.  In all cases the archive is built at a
".zip" sibling path and only then renamed onto the final path, and that
temporary path never equals the destination path, so no partially written
file ever exists at the destination: the only events are a zip write at
fzip and the rename fzip -> fpath. -/
theorem compress_naming_amended (b : Builder) (w : World) (d : EpubDirs)
    (p : String) (out1 out2 : CompressOut) (hd : b.dirs = some d)
    (h1 : compress b w none = .ok out1)
    (hp : ¬ p = "") (h2 : compress b w (some p) = .ok out2) :
    (startsSlash (rsplitEpub b.epub.title) = false →
      out1.fpath = "./" ++ (rsplitEpub b.epub.title ++ ".epub")) ∧
    (startsSlash (rsplitEpub b.epub.title) = true →
      out1.fpath = rsplitEpub b.epub.title ++ ".epub") ∧
    out2.fpath = pjoin (dirname p) (rsplitEpub (basename p) ++ ".epub") ∧
    out1.trace = [FileEvent.writeZip out1.fzip, FileEvent.rename out1.fzip out1.fpath] ∧
    out2.trace = [FileEvent.writeZip out2.fzip, FileEvent.rename out2.fzip out2.fpath] ∧
    out1.fzip ≠ out1.fpath ∧ out2.fzip ≠ out2.fpath := by
  simp only [compress, hd, hp, if_neg, Except.ok.injEq] at h1 h2
  subst h1
  subst h2
  refine ⟨?_, ?_, rfl, rfl, rfl, ?_, ?_⟩
  · intro hts
    exact pjoin_dot _ (startsSlash_append _ ".epub" hts (by decide))
  · intro hts
    have habs := startsSlash_append_true (rsplitEpub b.epub.title) ".epub" hts
    simp [pjoin, habs]
  · exact compress_fzip_ne "." (rsplitEpub b.epub.title)
  · exact compress_fzip_ne (dirname p) (rsplitEpub (basename p))

/-- the concrete compress output of the begun example build for destination
out/dir/book. -/
def outDir : CompressOut :=
  { fpath := "out/dir/book.epub"
    fzip := "out/dir/book.zip"
    members := outBook.members
    trace := [FileEvent.writeZip "out/dir/book.zip",
              FileEvent.rename "out/dir/book.zip" "out/dir/book.epub"] }

/-- Witness for the amended C6 on the begun example build, with and without
a destination path. -/
theorem compress_naming_amended_witness :
    (startsSlash (rsplitEpub begunB.epub.title) = false →
      outBook.fpath = "./" ++ (rsplitEpub begunB.epub.title ++ ".epub")) ∧
    (startsSlash (rsplitEpub begunB.epub.title) = true →
      outBook.fpath = rsplitEpub begunB.epub.title ++ ".epub") ∧
    outDir.fpath = pjoin (dirname "out/dir/book")
      (rsplitEpub (basename "out/dir/book") ++ ".epub") ∧
    outBook.trace
      = [FileEvent.writeZip outBook.fzip,
         FileEvent.rename outBook.fzip outBook.fpath] ∧
    outDir.trace
      = [FileEvent.writeZip outDir.fzip,
         FileEvent.rename outDir.fzip outDir.fpath] ∧
    outBook.fzip ≠ outBook.fpath ∧ outDir.fzip ≠ outDir.fpath :=
  compress_naming_amended begunB begunW (epub_dirs "/t") "out/dir/book"
    outBook outDir rfl (by rfl) (by decide) (by rfl)

/-! Marker member and compression methods (C1). -/

theorem basename_oebps (f : String) (h : goodName f = true) :
    basename ("OEBPS/" ++ f) = f := by
  rw [show ("OEBPS/" : String) ++ f = "OEBPS" ++ "/" ++ f by
    rw [show ("OEBPS" : String) ++ "/" = "OEBPS/" by decide]]
  exact basename_append "OEBPS" f h

theorem basename_images (f : String) (h : goodName f = true) :
    basename ("OEBPS/images/" ++ f) = f := by
  rw [show ("OEBPS/images/" : String) ++ f = "OEBPS/images" ++ "/" ++ f by
    rw [show ("OEBPS/images" : String) ++ "/" = "OEBPS/images/" by decide]]
  exact basename_append "OEBPS/images" f h

theorem basename_styles (f : String) (h : goodName f = true) :
    basename ("OEBPS/styles/" ++ f) = f := by
  rw [show ("OEBPS/styles/" : String) ++ f = "OEBPS/styles" ++ "/" ++ f by
    rw [show ("OEBPS/styles" : String) ++ "/" = "OEBPS/styles/" by decide]]
  exact basename_append "OEBPS/styles" f h

theorem basename_metainf (f : String) (h : goodName f = true) :
    basename ("META-INF/" ++ f) = f := by
  rw [show ("META-INF/" : String) ++ f = "META-INF" ++ "/" ++ f by
    rw [show ("META-INF" : String) ++ "/" = "META-INF/" by decide]]
  exact basename_append "META-INF" f h

/-- a build whose caller-supplied chapter link is literally "mimetype": begin
on the fresh coordinator, one successful render_chapter writing
OEBPS/mimetype, then index. -/
def cexAssign : Assignment := { id := "c1", link := "mimetype", play_order := 1 }

def cexState : Builder × World :=
  match begin env0 b0 w0 "/t" with
  | .ok (bb, ww, _) =>
    (runStages env0 factory0 bb ww [Stage.render cexAssign ch0, Stage.doIndex]).1
  | .error _ => (b0, w0)

/-- the members the subsequent compress writes for that build. -/
def cexMembers : List ZipMember :=
  match compress cexState.1 cexState.2 none with
  | .ok out => out.members
  | .error _ => []

/-- Claim C1 counterexample: the claim says every member other than the
first (the format marker) is written with the default compressed method, but
compress chooses the method from the walked filename alone (builder.py line
223), so a build whose chapter link is named "mimetype" produces a second
STORED member, OEBPS/mimetype, at position 2 of the archive — not deflated
as the claim requires.  (The first member is still the root marker.) -/
theorem compress_method_cex :
    cexMembers.head? = some { arcname := "mimetype", method := Method.stored } ∧
    cexMembers[2]? = some { arcname := "OEBPS/mimetype", method := Method.stored } := by
  constructor <;> rfl

/-- Claim C1 (amended): for every build whose base directory holds exactly
the marker file (which is what begin creates there), the archive's first
member is the marker, stored uncompressed; every other member is written
with the default compressed method UNLESS its own final path component is
also named "mimetype", in which case it too is stored — the method is a
function of the walked filename, not of the member position. -/
theorem compress_marker_amended (b : Builder) (w : World) (p : Option String)
    (out : CompressOut) (l : Layout) (hl : w.layout = some l)
    (hroot : fileNames l.rootFiles = ["mimetype"]) (hg : goodLayout l = true)
    (h : compress b w p = .ok out) :
    ∃ rest,
      out.members = { arcname := "mimetype", method := Method.stored } :: rest ∧
      ∀ m ∈ rest, m.method = methodFor (basename m.arcname) := by
  have hmem : out.members = zipMembers l := by
    cases hd : b.dirs with
    | none => simp [compress, hd] at h
    | some d =>
      simp only [compress, hd, hl, Except.ok.injEq] at h
      rw [← h]
  have hg' := hg
  unfold goodLayout at hg'
  simp only [Bool.and_eq_true] at hg'
  obtain ⟨⟨⟨⟨hg1, hg2⟩, hg3⟩, hg4⟩, hg5⟩ := hg'
  rw [hmem, zipMembers_eq l hg, hroot]
  refine ⟨(fileNames l.oebpsFiles).map
        (fun f => { arcname := "OEBPS/" ++ f, method := methodFor f })
      ++ (fileNames l.imageFiles).map
        (fun f => { arcname := "OEBPS/images/" ++ f, method := methodFor f })
      ++ (fileNames l.styleFiles).map
        (fun f => { arcname := "OEBPS/styles/" ++ f, method := methodFor f })
      ++ (fileNames l.metainfFiles).map
        (fun f => { arcname := "META-INF/" ++ f, method := methodFor f }), ?_, ?_⟩
  · simp [methodFor, List.append_assoc]
  · intro m hm
    simp only [List.mem_append, List.mem_map] at hm
    rcases hm with ((⟨f, hf, rfl⟩ | ⟨f, hf, rfl⟩) | ⟨f, hf, rfl⟩) | ⟨f, hf, rfl⟩
    · simp [basename_oebps f (List.all_eq_true.mp hg2 f hf)]
    · simp [basename_images f (List.all_eq_true.mp hg3 f hf)]
    · simp [basename_styles f (List.all_eq_true.mp hg4 f hf)]
    · simp [basename_metainf f (List.all_eq_true.mp hg5 f hf)]

/-- Witness for the amended C1 on the begun example build. -/
theorem compress_marker_amended_witness :
    begunW.layout = some begunLayout ∧
    fileNames begunLayout.rootFiles = ["mimetype"] ∧
    goodLayout begunLayout = true ∧
    compress begunB begunW none = .ok outBook ∧
    (∃ rest,
      outBook.members = { arcname := "mimetype", method := Method.stored } :: rest ∧
      ∀ m ∈ rest, m.method = methodFor (basename m.arcname)) :=
  ⟨rfl, rfl, by decide, by rfl,
   compress_marker_amended begunB begunW none outBook begunLayout rfl rfl
     (by decide) (by rfl)⟩

end Pypub
